import Mathlib

/-!
Shallow embedding of the quiz application core (Question, question
variants, Quiz, persistence) from `src/js/QuizApp.js`,
`src/js/MultipleChoiceQuestion.js` and the abstract `Question` base
class.  JavaScript numbers are modelled with `ℚ`/`Int`/`Nat` (the
computations the claims touch stay exact there); `null` is `Option`;
thrown exceptions are `Except`; `localStorage` for the quiz's one
storage key is an `Option PersistedState` field threaded through the
state.  `new Date()` values are taken as explicit `now : Int`
millisecond timestamps.
-/

/-- A question as constructed by the `Question` base class:
`id`, `text`, `options`, `correctAnswer`, `type` and the mutable
`selectedAnswer` (null = unanswered). -/
structure Question where
  id : Nat
  text : String
  options : List String
  correctAnswer : String
  type : String
  selectedAnswer : Option String
deriving Repr, DecidableEq

namespace Question

/-- The `Question` constructor together with `_validateInput`:
throws when `!id || !text || !correctAnswer` (JS falsiness: `0`, `""`),
or when `correctAnswer` is not an element of `options`.
(`Array.isArray(options)` always holds in the embedding.) -/
def construct (id : Nat) (text : String) (options : List String)
    (correctAnswer : String) (type : String) : Except String Question :=
  if id = 0 || text = "" || correctAnswer = "" then
    .error ("Invalid question parameters provided")
  else if !(options.contains correctAnswer) then
    .error ("Correct answer must be one of the provided options")
  else
    .ok { id := id, text := text, options := options,
          correctAnswer := correctAnswer, type := type, selectedAnswer := none }

/-- Models `Question.isCorrect()`: `selectedAnswer === correctAnswer`
(false when unanswered, since `null !== correctAnswer`). -/
def isCorrect (q : Question) : Bool :=
  q.selectedAnswer == some q.correctAnswer

/-- Models `Question.setAnswer(answer)`: sets `selectedAnswer` when
`answer ∈ options`, otherwise throws. -/
def setAnswer (q : Question) (answer : String) : Except String Question :=
  if q.options.contains answer then
    .ok { q with selectedAnswer := some answer }
  else
    .error ("Selected answer must be one of the available options")

/-- Models `Question.resetAnswer()`: sets `selectedAnswer` to null. -/
def resetAnswer (q : Question) : Question :=
  { q with selectedAnswer := none }

end Question

/-- The `MultipleChoiceQuestion` constructor: the base constructor with
type `'multiple-choice'`, then `_validateMultipleChoiceOptions`
(throws unless `2 ≤ options.length ≤ 6`). -/
def MultipleChoiceQuestion.construct (id : Nat) (text : String)
    (options : List String) (correctAnswer : String) : Except String Question :=
  match Question.construct id text options correctAnswer ("multiple-choice") with
  | .error e => .error e
  | .ok q =>
      if q.options.length < 2 || q.options.length > 6 then
        .error ("Multiple choice questions must have between 2 and 6 options")
      else .ok q

/-- The `TrueFalseQuestion` constructor: first validates
`correctAnswer ∈ ['True','False']`, then calls the base constructor
with the fixed options and type `'true-false'`. -/
def TrueFalseQuestion.construct (id : Nat) (text : String)
    (correctAnswer : String) : Except String Question :=
  if !(["True", "False"].contains correctAnswer) then
    .error ("Correct answer for True or False question must be True or False")
  else
    Question.construct id text ["True", "False"] correctAnswer ("true-false")

/-- One entry of the persisted `answers` array: `{id, selectedAnswer}`. -/
structure SavedAnswer where
  id : Nat
  selectedAnswer : Option String
deriving Repr, DecidableEq

/-- The record `_saveToStorage` writes under the storage key. -/
structure PersistedState where
  answers : List SavedAnswer
  startTime : Option Int
  isCompleted : Bool
  attempts : Nat
  version : String
deriving Repr, DecidableEq

/-- The configuration options of `Quiz` that the core logic reads
(rendering-only options omitted). -/
structure QuizConfig where
  passThreshold : ℚ
  showCorrectAnswers : Bool
  saveProgress : Bool
  storageKey : String
deriving Repr, DecidableEq

/-- Default config from the `Quiz` constructor:
`passThreshold` 0.7, `showCorrectAnswers` true, `saveProgress` true. -/
def QuizConfig.default : QuizConfig :=
  { passThreshold := 7/10, showCorrectAnswers := true,
    saveProgress := true, storageKey := "quizState" }

/-- The `Quiz` state: question collection plus session state, with the
contents of the quiz's `localStorage` key threaded in as `storage`. -/
structure Quiz where
  questions : List Question
  isCompleted : Bool
  score : Nat
  startTime : Option Int
  endTime : Option Int
  attempts : Nat
  config : QuizConfig
  storage : Option PersistedState
deriving Repr, DecidableEq

/-- JS `Math.round` on an exact (non-NaN, nonnegative-use) value:
round half up, i.e. `⌊x + 1/2⌋`. -/
def jsRound (q : ℚ) : Int := ⌊q + 1/2⌋

/-- The map `q => ({id: q.id, selectedAnswer: q.selectedAnswer})` used
by `_saveToStorage` over the question array. -/
def savedAnswerOf (q : Question) : SavedAnswer :=
  { id := q.id, selectedAnswer := q.selectedAnswer }

/-- Helper for in-place mutation of the first array element matching a
predicate (JS `find` returns a reference that is then mutated). -/
def updateFirst (p : Question → Bool) (f : Question → Question) :
    List Question → List Question
  | [] => []
  | q :: qs => if p q then f q :: qs else q :: updateFirst p f qs

namespace Quiz

/-- Models `Quiz.getQuestion(id)`: first question matching the id, else null. -/
def getQuestion (quiz : Quiz) (id : Nat) : Option Question :=
  quiz.questions.find? (fun q => q.id == id)

/-- Models `areAllQuestionsAnswered()`: every question has a non-null answer. -/
def areAllQuestionsAnswered (quiz : Quiz) : Bool :=
  quiz.questions.all (fun q => q.selectedAnswer.isSome)

/-- Models `getAnsweredCount()`: number of questions with a non-null answer. -/
def getAnsweredCount (quiz : Quiz) : Nat :=
  (quiz.questions.filter (fun q => q.selectedAnswer.isSome)).length

/-- The count `calculateScore` computes: questions with `isCorrect()`. -/
def countCorrect (quiz : Quiz) : Nat :=
  (quiz.questions.filter Question.isCorrect).length

/-- Models `calculateScore()`: stores and returns the number of correct answers. -/
def calculateScore (quiz : Quiz) : Nat × Quiz :=
  (quiz.countCorrect, { quiz with score := quiz.countCorrect })

/-- Models `isPassed()`: `score / questions.length >= passThreshold`.
(For an empty quiz JS computes `NaN >= t`, false; in `ℚ`, `0/0 = 0`
which compares the same way for the positive thresholds in use.) -/
def isPassed (quiz : Quiz) : Bool :=
  decide ((quiz.score : ℚ) / (quiz.questions.length : ℚ) ≥ quiz.config.passThreshold)

/-- The `duration` getter: 0 before the first answer, else
`Math.floor((endTime − startTime) / 1000)` with `endTime` defaulting to
the current time. -/
def duration (quiz : Quiz) (now : Int) : Int :=
  match quiz.startTime with
  | none => 0
  | some s => Int.fdiv (quiz.endTime.getD now - s) 1000

/-- Models `getProgressPercentage()`:
`Math.round((answeredCount / total) * 100)`.  With zero questions JS
computes `0/0 = NaN` and `Math.round(NaN) = NaN`, modelled as `none`. -/
def getProgressPercentage (quiz : Quiz) : Option Int :=
  if quiz.questions.length = 0 then none
  else some (jsRound ((quiz.getAnsweredCount : ℚ) / (quiz.questions.length : ℚ) * 100))

/-- Models `_saveToStorage()`: writes the persisted record unless
`saveProgress` is off or the quiz is completed. -/
def saveToStorage (quiz : Quiz) : Quiz :=
  if !quiz.config.saveProgress || quiz.isCompleted then quiz
  else
    let state : PersistedState :=
      { answers := quiz.questions.map savedAnswerOf,
        startTime := quiz.startTime,
        isCompleted := quiz.isCompleted,
        attempts := quiz.attempts,
        version := "1.0" }
    { quiz with storage := some state }

/-- Models `_clearStorage()`: removes the stored record. -/
def clearStorage (quiz : Quiz) : Quiz :=
  { quiz with storage := none }

/-- Models `Quiz.setAnswer(questionId, answer)`: looks the question up,
delegates to `Question.setAnswer`, starts the timer on first answer,
saves progress unless completed; the surrounding try/catch turns every
thrown error into `false` with no state change. -/
def setAnswer (quiz : Quiz) (questionId : Nat) (answer : String) (now : Int) :
    Bool × Quiz :=
  match quiz.getQuestion questionId with
  | none => (false, quiz)
  | some q =>
    match q.setAnswer answer with
    | .error _ => (false, quiz)
    | .ok q' =>
      let quiz1 := { quiz with
        questions := updateFirst (fun x => x.id == questionId) (fun _ => q') quiz.questions }
      let quiz2 := if quiz1.startTime.isNone then { quiz1 with startTime := some now } else quiz1
      let quiz3 := if quiz2.config.saveProgress && !quiz2.isCompleted
                   then quiz2.saveToStorage else quiz2
      (true, quiz3)

/-- Models `resetAllAnswers()`: resets every question, clears completion,
score, both timestamps, and the stored record. -/
def resetAllAnswers (quiz : Quiz) : Quiz :=
  { quiz with
    questions := quiz.questions.map Question.resetAnswer,
    isCompleted := false,
    score := 0,
    startTime := none,
    endTime := none,
    storage := none }

/-- One row of the per-question result breakdown. -/
structure QuestionResult where
  id : Nat
  text : String
  selectedAnswer : Option String
  correctAnswer : String
  isCorrect : Bool
  type : String
deriving Repr, DecidableEq

/-- Models `_getQuestionResults()`. -/
def getQuestionResults (quiz : Quiz) : List QuestionResult :=
  quiz.questions.map (fun q =>
    { id := q.id, text := q.text, selectedAnswer := q.selectedAnswer,
      correctAnswer := q.correctAnswer, isCorrect := q.isCorrect, type := q.type })

/-- The `Result` snapshot produced by `_generateResults`
(`completedAt` is the submission instant, kept as the raw timestamp). -/
structure QuizResult where
  score : Nat
  total : Nat
  percentage : Option Int
  passed : Bool
  passingScore : Int
  duration : Int
  attempts : Nat
  completedAt : Int
  questions : Option (List QuestionResult)
deriving Repr, DecidableEq

/-- Models `_generateResults()`: percentage is
`Math.round((score / total) * 100)` (`none` models the NaN of a
zero-question quiz), `passed` is `isPassed()`, `passingScore` is
`Math.ceil(total * passThreshold)`. -/
def generateResults (quiz : Quiz) (now : Int) : QuizResult :=
  { score := quiz.score,
    total := quiz.questions.length,
    percentage :=
      if quiz.questions.length = 0 then none
      else some (jsRound ((quiz.score : ℚ) / (quiz.questions.length : ℚ) * 100)),
    passed := quiz.isPassed,
    passingScore := ⌈(quiz.questions.length : ℚ) * quiz.config.passThreshold⌉,
    duration := quiz.duration now,
    attempts := quiz.attempts,
    completedAt := now,
    questions := if quiz.config.showCorrectAnswers then some quiz.getQuestionResults else none }

/-- Models `submitQuiz()`: throws `IncompleteQuiz` unless all questions are
answered, throws `AlreadySubmitted` when already completed; otherwise
recomputes the score, marks completion, stamps `endTime`, increments
`attempts`, clears storage and returns the generated results together
with the post-submission state. -/
def submitQuiz (quiz : Quiz) (now : Int) : Except String (QuizResult × Quiz) :=
  if !quiz.areAllQuestionsAnswered then
    .error ("Cannot submit quiz: not all questions have been answered")
  else if quiz.isCompleted then
    .error ("Quiz has already been submitted")
  else
    let quiz1 := (quiz.calculateScore).2
    let quiz2 := { quiz1 with isCompleted := true, endTime := some now,
                              attempts := quiz1.attempts + 1 }
    let quiz3 := quiz2.clearStorage
    .ok (quiz3.generateResults now, quiz3)

/-- The restore loop of `loadFromStorage`: for each saved answer whose
question exists and whose `selectedAnswer` is truthy (non-null,
non-empty), calls `question.setAnswer`; a thrown `InvalidAnswer`
escapes to the surrounding catch with the mutations made so far
(carried by `.error`). -/
def restoreLoop : List Question → List SavedAnswer → Except (List Question) (List Question)
  | qs, [] => .ok qs
  | qs, sa :: rest =>
    match qs.find? (fun q => q.id == sa.id) with
    | none => restoreLoop qs rest
    | some q =>
      match sa.selectedAnswer with
      | none => restoreLoop qs rest
      | some v =>
        if v = "" then restoreLoop qs rest
        else if q.options.contains v then
          restoreLoop
            (updateFirst (fun x => x.id == sa.id)
              (fun x => { x with selectedAnswer := some v }) qs) rest
        else .error qs

/-- Models `loadFromStorage()`: no-op when `saveProgress` is off or nothing is
stored; a stored record with `isCompleted` true is cleared and not
restored; otherwise answers, `startTime` and `attempts` are restored.
A throw during restoration falls into the catch: clear storage, return
false (answers already restored stay restored). -/
def loadFromStorage (quiz : Quiz) : Bool × Quiz :=
  if !quiz.config.saveProgress then (false, quiz)
  else
    match quiz.storage with
    | none => (false, quiz)
    | some state =>
      if state.isCompleted then (false, quiz.clearStorage)
      else
        match restoreLoop quiz.questions state.answers with
        | .error partialQs =>
            (false, { quiz with questions := partialQs, storage := none })
        | .ok qs =>
            let quiz1 := { quiz with questions := qs }
            let quiz2 := match state.startTime with
                         | some t => { quiz1 with startTime := some t }
                         | none => quiz1
            (true, { quiz2 with attempts := state.attempts })

/-- Per-type statistics cell of `_getQuestionTypeStats`. -/
structure TypeStat where
  total : Nat
  answered : Nat
  correct : Nat
deriving Repr, DecidableEq

/-- Update-or-insert on the assoc list modelling the JS stats object
(insertion-ordered keys). -/
def updateAssoc (t : String) (f : TypeStat → TypeStat) :
    List (String × TypeStat) → List (String × TypeStat)
  | [] => [(t, f ⟨0, 0, 0⟩)]
  | (k, v) :: rest => if k = t then (k, f v) :: rest else (k, v) :: updateAssoc t f rest

/-- Models `_getQuestionTypeStats()`. -/
def getQuestionTypeStats (quiz : Quiz) : List (String × TypeStat) :=
  quiz.questions.foldl (fun stats q =>
    updateAssoc q.type (fun s =>
      { total := s.total + 1,
        answered := if q.selectedAnswer.isSome then s.answered + 1 else s.answered,
        correct := if q.selectedAnswer.isSome && q.isCorrect then s.correct + 1 else s.correct })
      stats) []

/-- The record `getStatistics` returns. -/
structure QuizStatistics where
  totalQuestions : Nat
  answeredQuestions : Nat
  correctAnswers : Nat
  progress : Option Int
  isCompleted : Bool
  passed : Option Bool
  duration : Int
  averageTimePerQuestion : ℚ
  questionTypes : List (String × TypeStat)
  attempts : Nat
deriving Repr, DecidableEq

/-- Models `getStatistics()`: read-only projection; `averageTimePerQuestion`
is `duration / answeredCount` guarded by `answeredCount > 0 ? ... : 0`. -/
def getStatistics (quiz : Quiz) (now : Int) : QuizStatistics :=
  let answeredCount := quiz.getAnsweredCount
  { totalQuestions := quiz.questions.length,
    answeredQuestions := answeredCount,
    correctAnswers := if quiz.isCompleted then quiz.score else 0,
    progress := quiz.getProgressPercentage,
    isCompleted := quiz.isCompleted,
    passed := if quiz.isCompleted then some quiz.isPassed else none,
    duration := quiz.duration now,
    averageTimePerQuestion :=
      if answeredCount > 0 then (quiz.duration now : ℚ) / (answeredCount : ℚ) else 0,
    questionTypes := quiz.getQuestionTypeStats,
    attempts := quiz.attempts }

end Quiz

/-- The initial state the `Quiz` constructor produces for a given
question list and configuration (before any `loadFromStorage`). -/
def mkQuiz (qs : List Question) (cfg : QuizConfig) : Quiz :=
  { questions := qs, isCompleted := false, score := 0, startTime := none,
    endTime := none, attempts := 0, config := cfg, storage := none }

/-- The selection `loadFromStorage` reproduces for a question that was
saved with answer state `q.selectedAnswer`: non-null, non-empty answers
are restored, a null or empty (falsy) saved answer leaves the question
unanswered. -/
def expectedRestore (q : Question) : Question :=
  match q.selectedAnswer with
  | none => q.resetAnswer
  | some v => if v = "" then q.resetAnswer else q

/-- Concrete fixture: an answered true-false question. -/
def questionC1 : Question :=
  { id := 1, text := "t", options := ["True", "False"], correctAnswer := "True",
    type := "true-false", selectedAnswer := some ("True") }

/-- Concrete fixture: a fresh one-question quiz, fully answered. -/
def quizC1 : Quiz := mkQuiz [questionC1] QuizConfig.default

/-- Concrete fixture: an answered multiple-choice question. -/
def questionC2 : Question :=
  { id := 1, text := "t", options := ["A", "B"], correctAnswer := "A",
    type := "multiple-choice", selectedAnswer := some ("A") }

/-- Concrete fixture: a quiz that has already been submitted. -/
def quizC2 : Quiz :=
  { mkQuiz [questionC2] QuizConfig.default with
    isCompleted := true, score := 1, startTime := some 0,
    endTime := some 1000, attempts := 1 }

/-- Concrete fixture: the `i+1`-th true-false question (correct answer
`True`) answered with `sel`. -/
def tfAnswered (i : Nat) (sel : String) : Question :=
  { id := i + 1, text := "s", options := ["True", "False"], correctAnswer := "True",
    type := "true-false", selectedAnswer := some sel }

/-- Concrete fixture: 12 questions, 9 answered correctly. -/
def quizC3a : Quiz :=
  mkQuiz ((List.range 9).map (fun i => tfAnswered i ("True")) ++
          (List.range 3).map (fun i => tfAnswered (i + 9) ("False")))
    QuizConfig.default

/-- Concrete fixture: 10 questions, 7 answered correctly. -/
def quizC3b : Quiz :=
  mkQuiz ((List.range 7).map (fun i => tfAnswered i ("True")) ++
          (List.range 3).map (fun i => tfAnswered (i + 7) ("False")))
    QuizConfig.default

/-- Concrete fixture: a quiz with zero questions. -/
def emptyQuiz : Quiz := mkQuiz [] QuizConfig.default

/-- Concrete fixture: a base-class question with a single option. -/
def questionC6 : Question :=
  { id := 7, text := "t", options := ["A"], correctAnswer := "A",
    type := "multiple-choice", selectedAnswer := none }

/-- Concrete fixture: a multiple-choice question whose two options are
the same string. -/
def questionC6dup : Question :=
  { id := 8, text := "t", options := ["A", "A"], correctAnswer := "A",
    type := "multiple-choice", selectedAnswer := none }

/-- Concrete fixture: the question produced by a valid true-false
construction. -/
def questionC6tf : Question :=
  { id := 1, text := "t", options := ["True", "False"], correctAnswer := "True",
    type := "true-false", selectedAnswer := none }

/-- Concrete fixture: the question produced by a valid multiple-choice
construction. -/
def questionC6mc : Question :=
  { id := 5, text := "t", options := ["A", "B", "C"], correctAnswer := "B",
    type := "multiple-choice", selectedAnswer := none }

/-- Concrete fixture: a question whose options include the empty
string, answered with it. -/
def questionC7 : Question :=
  { id := 1, text := "t", options := ["", "x"], correctAnswer := "x",
    type := "multiple-choice", selectedAnswer := some ("") }

/-- Concrete fixture: an in-progress quiz holding `questionC7`. -/
def quizC7 : Quiz :=
  { mkQuiz [questionC7] QuizConfig.default with startTime := some 4 }

/-- Concrete fixture: the record `quizC7.saveToStorage` writes. -/
def stateC7 : PersistedState :=
  { answers := [{ id := 1, selectedAnswer := some ("") }],
    startTime := some 4, isCompleted := false, attempts := 0, version := "1.0" }

/-- Concrete fixture: a freshly constructed quiz over the same
question set, with the saved record still in storage. -/
def freshC7 : Quiz :=
  { mkQuiz [questionC7.resetAnswer] QuizConfig.default with storage := some stateC7 }

/-- Concrete fixture: an answered and an unanswered question. -/
def questionC7a : Question :=
  { id := 1, text := "a", options := ["A", "B"], correctAnswer := "A",
    type := "multiple-choice", selectedAnswer := some ("B") }

/-- Concrete fixture: an unanswered true-false question. -/
def questionC7b : Question :=
  { id := 2, text := "b", options := ["True", "False"], correctAnswer := "True",
    type := "true-false", selectedAnswer := none }

/-- Concrete fixture: an in-progress quiz over the two questions. -/
def quizC7w : Quiz :=
  { mkQuiz [questionC7a, questionC7b] QuizConfig.default with
    startTime := some 11, attempts := 3 }

/-- Concrete fixture: the record `quizC7w.saveToStorage` writes. -/
def stateC7w : PersistedState :=
  { answers := [{ id := 1, selectedAnswer := some ("B") },
                { id := 2, selectedAnswer := none }],
    startTime := some 11, isCompleted := false, attempts := 3, version := "1.0" }

/-- Concrete fixture: a fresh quiz over the reset question set with the
saved record in storage. -/
def freshC7w : Quiz :=
  { mkQuiz [questionC7a.resetAnswer, questionC7b.resetAnswer] QuizConfig.default with
    storage := some stateC7w }

/-- Concrete fixture: a stale persisted record marked completed. -/
def stateC8 : PersistedState :=
  { answers := [{ id := 1, selectedAnswer := some ("False") }],
    startTime := some 0, isCompleted := true, attempts := 2, version := "1.0" }

/-- Concrete fixture: a fresh quiz whose storage holds the stale
completed record. -/
def quizC8 : Quiz :=
  { mkQuiz [questionC1] QuizConfig.default with storage := some stateC8 }

/-- The quiz state after a successful `submitQuiz()` at time `now`:
score recomputed, completion marked, `endTime` stamped, `attempts`
incremented, storage cleared. -/
def Quiz.afterSubmit (quiz : Quiz) (now : Int) : Quiz :=
  { quiz with score := quiz.countCorrect, isCompleted := true,
              endTime := some now, attempts := quiz.attempts + 1,
              storage := none }

/-! ## Helper lemmas -/

/-- Finding after `updateFirst` with the same predicate returns the
updated element, provided the update preserves the predicate. -/
theorem find?_updateFirst (p : Question → Bool) (f : Question → Question)
    (l : List Question) (hf : ∀ x, p x = true → p (f x) = true) :
    (updateFirst p f l).find? p = (l.find? p).map f := by
  induction l with
  | nil => rfl
  | cons x xs ih =>
    by_cases hx : p x = true
    · simp [updateFirst, hx, List.find?_cons_of_pos, hf x hx]
    · have hx' : p x = false := by simpa using hx
      simp [updateFirst, hx', List.find?_cons_of_neg, ih]

/-! ## C9: resetAllAnswers -/

/-- C9: for every Quiz state, `resetAllAnswers()` sets `score` to 0,
`completed` to false, `startTime` and `endTime` to null, every
question's `selectedAnswer` to null (via `Question.resetAnswer`), and
erases the persisted record, while leaving `attempts` and the
configuration unchanged; it always succeeds and changes nothing else. -/
theorem resetAllAnswers_spec (quiz : Quiz) :
    quiz.resetAllAnswers.score = 0 ∧
    quiz.resetAllAnswers.isCompleted = false ∧
    quiz.resetAllAnswers.startTime = none ∧
    quiz.resetAllAnswers.endTime = none ∧
    quiz.resetAllAnswers.questions = quiz.questions.map Question.resetAnswer ∧
    quiz.resetAllAnswers.storage = none ∧
    quiz.resetAllAnswers.attempts = quiz.attempts ∧
    quiz.resetAllAnswers.config = quiz.config :=
  ⟨rfl, rfl, rfl, rfl, rfl, rfl, rfl, rfl⟩

/-! ## C10: getStatistics with no answered question -/

/-- C10: when no question is answered, `getStatistics()` returns
`averageTimePerQuestion = 0`: the division `duration / answeredCount`
is guarded by an `answeredCount > 0` check. -/
theorem getStatistics_avg_time_zero_answered (quiz : Quiz) (now : Int)
    (h : quiz.getAnsweredCount = 0) :
    (quiz.getStatistics now).averageTimePerQuestion = 0 := by
  simp [Quiz.getStatistics, h]

/-- Witness for C10 at a concrete unanswered quiz. -/
theorem getStatistics_avg_time_zero_answered_witness :
    quizC7w.resetAllAnswers.getAnsweredCount = 0 ∧
    (quizC7w.resetAllAnswers.getStatistics 77).averageTimePerQuestion = 0 :=
  ⟨rfl, getStatistics_avg_time_zero_answered quizC7w.resetAllAnswers 77 rfl⟩

/-! ## C4: getProgressPercentage and the zero-question quiz -/

/-- C4 (code bug): the division in `getProgressPercentage()` is NOT
guarded: for a quiz with zero questions the code computes
`Math.round((0/0) * 100) = NaN` (modelled `none`), not the `0` the
specification requires; on a non-empty concrete quiz the rounded
percentage is produced as specified. -/
theorem getProgressPercentage_zero_questions_nan :
    emptyQuiz.questions.length = 0 ∧
    emptyQuiz.getProgressPercentage = none ∧
    emptyQuiz.getProgressPercentage ≠ some 0 ∧
    quizC1.getProgressPercentage = some 100 := by
  refine ⟨rfl, rfl, by simp [emptyQuiz, mkQuiz, Quiz.getProgressPercentage], ?_⟩
  simp [quizC1, mkQuiz, Quiz.getProgressPercentage, Quiz.getAnsweredCount, questionC1]
  norm_num [jsRound]

/-! ## C5: setAnswer failure paths -/

/-- C5: `Quiz.setAnswer` returns a success/failure Boolean and never
throws (it is a total function into `Bool × Quiz`); when the id matches
no question, or the value is not among the matched question's options,
it reports failure and the entire quiz state — every question's
`selectedAnswer`, `startTime`, `completed`, `score`, `attempts`,
storage — is unchanged. -/
theorem setAnswer_failure_preserves_state (quiz : Quiz) (questionId : Nat)
    (answer : String) (now : Int)
    (h : quiz.getQuestion questionId = none ∨
      ∃ q, quiz.getQuestion questionId = some q ∧ q.options.contains answer = false) :
    quiz.setAnswer questionId answer now = (false, quiz) := by
  rcases h with h | ⟨q, hq, hv⟩
  · simp [Quiz.setAnswer, h]
  · have hv' : answer ∉ q.options := by simpa using hv
    simp [Quiz.setAnswer, hq, Question.setAnswer, hv']

/-- Witness for C5: unknown question id, and a value outside the
options, each leave a concrete quiz unchanged. -/
theorem setAnswer_failure_preserves_state_witness :
    quizC1.setAnswer 99 ("True") 0 = (false, quizC1) ∧
    quizC1.setAnswer 1 ("Maybe") 0 = (false, quizC1) := by
  constructor
  · exact setAnswer_failure_preserves_state quizC1 99 ("True") 0 (Or.inl rfl)
  · exact setAnswer_failure_preserves_state quizC1 1 ("Maybe") 0
      (Or.inr ⟨questionC1, rfl, rfl⟩)

/-! ## C8: loading a stale completed record -/

/-- C8: when persistence is enabled and the stored record's completed
flag is true, `loadFromStorage` restores nothing: it reports failure,
clears the stored record, and leaves every question, the `startTime`
and `attempts` (and all other fields) unchanged. -/
theorem loadFromStorage_stale_completed (quiz : Quiz) (state : PersistedState)
    (hsp : quiz.config.saveProgress = true)
    (hst : quiz.storage = some state)
    (hc : state.isCompleted = true) :
    quiz.loadFromStorage = (false, { quiz with storage := none }) := by
  simp [Quiz.loadFromStorage, hsp, hst, hc, Quiz.clearStorage]

/-- Witness for C8 at a concrete quiz holding a stale completed record. -/
theorem loadFromStorage_stale_completed_witness :
    quizC8.loadFromStorage = (false, { quizC8 with storage := none }) ∧
    quizC8.loadFromStorage.2.questions = quizC8.questions ∧
    quizC8.loadFromStorage.2.startTime = quizC8.startTime ∧
    quizC8.loadFromStorage.2.attempts = quizC8.attempts := by
  have h := loadFromStorage_stale_completed quizC8 stateC8 rfl rfl rfl
  exact ⟨h, by rw [h], by rw [h], by rw [h]⟩

/-- Unfolding lemma: `submitQuiz` as a single conditional. -/
theorem submitQuiz_eq (quiz : Quiz) (now : Int) :
    quiz.submitQuiz now =
      (if quiz.areAllQuestionsAnswered = true then
        (if quiz.isCompleted = true then
          .error ("Quiz has already been submitted")
        else
          .ok ((quiz.afterSubmit now).generateResults now, quiz.afterSubmit now))
      else
        .error ("Cannot submit quiz: not all questions have been answered")) := by
  by_cases ha : quiz.areAllQuestionsAnswered <;> by_cases hc : quiz.isCompleted <;>
    simp [Quiz.submitQuiz, Quiz.afterSubmit, Quiz.calculateScore, Quiz.clearStorage, ha, hc]

/-! ## C1: submitQuiz success condition and effects -/

/-- C1: `submitQuiz()` succeeds iff `areAllQuestionsAnswered()` is true
and `completed` is false, and fails deterministically otherwise; on
success the post-state has `completed = true`, `score` recomputed as
the count of `isCorrect()` over all questions, and `attempts`
incremented by one, and any second submission on the post-state is
rejected (with the `AlreadySubmitted` error) rather than re-scored. -/
theorem submitQuiz_succeeds_iff_eligible (quiz : Quiz) (now : Int) :
    ((∃ r q', quiz.submitQuiz now = .ok (r, q')) ↔
      quiz.areAllQuestionsAnswered = true ∧ quiz.isCompleted = false) ∧
    ∀ r q', quiz.submitQuiz now = .ok (r, q') →
      q'.isCompleted = true ∧
      q'.score = quiz.countCorrect ∧
      q'.attempts = quiz.attempts + 1 ∧
      ∀ now2, q'.submitQuiz now2 = .error ("Quiz has already been submitted") := by
  by_cases ha : quiz.areAllQuestionsAnswered
  · by_cases hc : quiz.isCompleted
    · constructor
      · constructor
        · rintro ⟨r, q', h⟩
          rw [submitQuiz_eq, if_pos ha, if_pos hc] at h
          cases h
        · rintro ⟨-, h⟩
          rw [hc] at h
          cases h
      · intro r q' h
        rw [submitQuiz_eq, if_pos ha, if_pos hc] at h
        cases h
    · have hc' : quiz.isCompleted = false := by simpa using hc
      have hok : quiz.submitQuiz now =
          .ok ((quiz.afterSubmit now).generateResults now, quiz.afterSubmit now) := by
        rw [submitQuiz_eq, if_pos ha, if_neg (by simp [hc'])]
      constructor
      · exact ⟨fun _ => ⟨ha, hc'⟩, fun _ => ⟨_, _, hok⟩⟩
      · intro r q' h
        rw [hok] at h
        simp only [Except.ok.injEq, Prod.mk.injEq] at h
        obtain ⟨hr, hq'⟩ := h
        subst hq'
        refine ⟨rfl, rfl, rfl, fun now2 => ?_⟩
        have haa : (quiz.afterSubmit now).areAllQuestionsAnswered = true := ha
        rw [submitQuiz_eq, if_pos haa,
          if_pos (show (quiz.afterSubmit now).isCompleted = true from rfl)]
  · have ha' : quiz.areAllQuestionsAnswered = false := by simpa using ha
    have herr : quiz.submitQuiz now =
        .error ("Cannot submit quiz: not all questions have been answered") := by
      rw [submitQuiz_eq, if_neg (by simp [ha'])]
    constructor
    · constructor
      · rintro ⟨r, q', h⟩
        rw [herr] at h
        cases h
      · rintro ⟨h, -⟩
        rw [ha'] at h
        cases h
    · intro r q' h
      rw [herr] at h
      cases h

/-- Witness for C1 at a concrete fully answered quiz: submission
succeeds, completes, scores 1 of 1, counts the attempt, and a second
submission is rejected. -/
theorem submitQuiz_succeeds_iff_eligible_witness :
    (quizC1.submitQuiz 5).map (fun p => (p.2.isCompleted, p.2.score, p.2.attempts)) =
      .ok (true, 1, 1) ∧
    (quizC1.submitQuiz 5).map (fun p => p.2.submitQuiz 99) =
      .ok (.error ("Quiz has already been submitted")) := by
  rcases hE : quizC1.submitQuiz 5 with e | ⟨r, q'⟩
  · exact absurd hE (by simp [submitQuiz_eq,
      show quizC1.areAllQuestionsAnswered = true from rfl,
      show quizC1.isCompleted = false from rfl])
  · have h := (submitQuiz_succeeds_iff_eligible quizC1 5).2 r q' hE
    constructor
    · show Except.ok (q'.isCompleted, q'.score, q'.attempts) = Except.ok (true, 1, 1)
      rw [h.1, h.2.1, h.2.2.1]
      rfl
    · show Except.ok (q'.submitQuiz 99) = Except.ok (.error ("Quiz has already been submitted"))
      rw [h.2.2.2 99]

/-! ## C2: setAnswer on a completed quiz -/

/-- C2 counterexample: on a concrete completed quiz, `Quiz.setAnswer`
with a valid id and option value is NOT rejected — it reports success
and changes the question's `selectedAnswer` from `"A"` to `"B"`,
refuting the claim that answers are locked in at the Quiz level after
submission. -/
theorem setAnswer_completed_counterexample :
    quizC2.isCompleted = true ∧
    (quizC2.getQuestion 1).map Question.selectedAnswer = some (some ("A")) ∧
    (quizC2.setAnswer 1 ("B") 2000).1 = true ∧
    ((quizC2.setAnswer 1 ("B") 2000).2.getQuestion 1).map Question.selectedAnswer =
      some (some ("B")) := by
  refine ⟨rfl, rfl, rfl, rfl⟩

/-- C2 amended: `Quiz.setAnswer` performs no completion check — on a
completed quiz a valid re-answer still succeeds and overwrites the
question's `selectedAnswer`; completion only suppresses the
persistence write (`storage` is unchanged), and the quiz stays
completed. -/
theorem setAnswer_on_completed_updates_answer (quiz : Quiz) (questionId : Nat)
    (answer : String) (now : Int) (q : Question)
    (hc : quiz.isCompleted = true)
    (hq : quiz.getQuestion questionId = some q)
    (hv : q.options.contains answer = true) :
    (quiz.setAnswer questionId answer now).1 = true ∧
    ((quiz.setAnswer questionId answer now).2.getQuestion questionId).map
      Question.selectedAnswer = some (some answer) ∧
    (quiz.setAnswer questionId answer now).2.storage = quiz.storage ∧
    (quiz.setAnswer questionId answer now).2.isCompleted = true := by
  have hv' : answer ∈ q.options := by simpa using hv
  have hqf : quiz.questions.find? (fun x => x.id == questionId) = some q := hq
  have hpq := List.find?_some hqf
  have hfind := find?_updateFirst (fun x => x.id == questionId)
    (fun _ => { q with selectedAnswer := some answer }) quiz.questions
    (fun _ _ => hpq)
  by_cases hst : quiz.startTime.isNone <;>
    simp [Quiz.setAnswer, hq, Question.setAnswer, hv', hst, hc,
      Quiz.getQuestion, hfind, hqf]

/-- Witness for C2 (amended) at the concrete completed quiz. -/
theorem setAnswer_on_completed_updates_answer_witness :
    (quizC2.setAnswer 1 ("B") 2000).1 = true ∧
    ((quizC2.setAnswer 1 ("B") 2000).2.getQuestion 1).map Question.selectedAnswer =
      some (some ("B")) ∧
    (quizC2.setAnswer 1 ("B") 2000).2.storage = quizC2.storage ∧
    (quizC2.setAnswer 1 ("B") 2000).2.isCompleted = true :=
  setAnswer_on_completed_updates_answer quizC2 1 ("B") 2000 questionC2 rfl rfl rfl

/-! ## C3: numeric policy of the Result -/

/-- C3: for a successful submission of a quiz with `n > 0` questions
and recomputed score `s` at threshold `t`, the Result carries
`percentage = round(100·s/n)` with round-half-up, `passed = (s/n ≥ t)`
with inclusive `≥`, and `passingScore = ceil(n·t)`. -/
theorem submitQuiz_result_numeric_policy (quiz : Quiz) (now : Int)
    (r : Quiz.QuizResult) (q' : Quiz)
    (hn : 0 < quiz.questions.length)
    (hE : quiz.submitQuiz now = .ok (r, q')) :
    r.percentage =
      some (jsRound (100 * (quiz.countCorrect : ℚ) / (quiz.questions.length : ℚ))) ∧
    r.passed =
      decide ((quiz.countCorrect : ℚ) / (quiz.questions.length : ℚ) ≥
        quiz.config.passThreshold) ∧
    r.passingScore = ⌈(quiz.questions.length : ℚ) * quiz.config.passThreshold⌉ := by
  rw [submitQuiz_eq] at hE
  by_cases ha : quiz.areAllQuestionsAnswered = true
  · rw [if_pos ha] at hE
    by_cases hc : quiz.isCompleted = true
    · rw [if_pos hc] at hE
      cases hE
    · rw [if_neg hc] at hE
      simp only [Except.ok.injEq, Prod.mk.injEq] at hE
      obtain ⟨hr, hq'⟩ := hE
      subst hr
      have hlen : ¬((quiz.afterSubmit now).questions.length = 0) :=
        Nat.pos_iff_ne_zero.mp hn
      refine ⟨?_, rfl, rfl⟩
      show (if (quiz.afterSubmit now).questions.length = 0 then none
        else some (jsRound (((quiz.afterSubmit now).score : ℚ) /
          ((quiz.afterSubmit now).questions.length : ℚ) * 100))) = _
      rw [if_neg hlen]
      have harg : ((quiz.afterSubmit now).score : ℚ) /
            ((quiz.afterSubmit now).questions.length : ℚ) * 100 =
          100 * (quiz.countCorrect : ℚ) / (quiz.questions.length : ℚ) := by
        show (quiz.countCorrect : ℚ) / (quiz.questions.length : ℚ) * 100 = _
        ring
      rw [harg]
  · rw [if_neg ha] at hE
    cases hE

/-- Witness for C3 at the two concrete quizzes from the specification:
12 questions with 9 correct give percentage 75, passed, passing score
9; 10 questions with 7 correct give percentage 70, passed. -/
theorem submitQuiz_result_numeric_policy_witness :
    (quizC3a.submitQuiz 0).map (fun p => (p.1.percentage, p.1.passed, p.1.passingScore)) =
      .ok (some 75, true, 9) ∧
    (quizC3b.submitQuiz 0).map (fun p => (p.1.percentage, p.1.passed)) =
      .ok (some 70, true) := by
  constructor
  · rcases hE : quizC3a.submitQuiz 0 with e | ⟨r, q'⟩
    · exact absurd hE (by simp [submitQuiz_eq,
        show quizC3a.areAllQuestionsAnswered = true from rfl,
        show quizC3a.isCompleted = false from rfl])
    · have h := submitQuiz_result_numeric_policy quizC3a 0 r q' (by decide) hE
      have hcc : quizC3a.countCorrect = 9 := by rfl
      have hln : quizC3a.questions.length = 12 := by rfl
      have hth : quizC3a.config.passThreshold = 7/10 := rfl
      rw [hcc, hln, hth] at h
      show Except.ok (r.percentage, r.passed, r.passingScore) = _
      rw [h.1, h.2.1, h.2.2]
      simp only [Except.ok.injEq, Prod.mk.injEq, Option.some.injEq]
      refine ⟨?_, ?_, ?_⟩
      · norm_num [jsRound]
      · simp only [decide_eq_true_eq, ge_iff_le]
        norm_num
      · rw [Int.ceil_eq_iff]; norm_num
  · rcases hE : quizC3b.submitQuiz 0 with e | ⟨r, q'⟩
    · exact absurd hE (by simp [submitQuiz_eq,
        show quizC3b.areAllQuestionsAnswered = true from rfl,
        show quizC3b.isCompleted = false from rfl])
    · have h := submitQuiz_result_numeric_policy quizC3b 0 r q' (by decide) hE
      have hcc : quizC3b.countCorrect = 7 := by rfl
      have hln : quizC3b.questions.length = 10 := by rfl
      have hth : quizC3b.config.passThreshold = 7/10 := rfl
      rw [hcc, hln, hth] at h
      show Except.ok (r.percentage, r.passed) = _
      rw [h.1, h.2.1]
      simp only [Except.ok.injEq, Prod.mk.injEq, Option.some.injEq]
      constructor
      · norm_num [jsRound]
      · simp only [decide_eq_true_eq, ge_iff_le]
        norm_num

/-! ## C6: construction invariants -/

/-- Characterization of a successful base `Question` construction. -/
theorem question_construct_ok (id : Nat) (text : String) (options : List String)
    (correctAnswer type : String) (q : Question)
    (h : Question.construct id text options correctAnswer type = .ok q) :
    q.options = options ∧ q.correctAnswer = correctAnswer ∧
    options.contains correctAnswer = true := by
  simp only [Question.construct] at h
  split at h
  · cases h
  · split at h
    · cases h
    · rename_i hcon
      injection h with h2
      subst h2
      exact ⟨rfl, rfl, by simpa using hcon⟩

/-- C6 counterexample: the base `Question` constructor accepts a
single-option question, and the multiple-choice constructor accepts
two identical options (only the count, not distinctness, is checked) —
refuting the claim that every successful construction has at least two
distinct option values. -/
theorem question_construct_counterexample :
    Question.construct 7 ("t") ["A"] ("A") ("multiple-choice") = .ok questionC6 ∧
    questionC6.options.length = 1 ∧
    MultipleChoiceQuestion.construct 8 ("t") ["A", "A"] ("A") = .ok questionC6dup ∧
    questionC6dup.options.dedup.length = 1 :=
  ⟨rfl, rfl, rfl, rfl⟩

/-- C6 amended: every successfully constructed `Question` satisfies
`correctAnswer ∈ options`; the base constructor imposes no minimum
option count and no distinctness, while the `MultipleChoiceQuestion`
constructor additionally guarantees `2 ≤ |options| ≤ 6` counted with
multiplicity (duplicates allowed). -/
theorem construct_invariants :
    (∀ id text options correctAnswer type q,
      Question.construct id text options correctAnswer type = .ok q →
        q.options.contains q.correctAnswer = true) ∧
    (∀ id text options correctAnswer q,
      MultipleChoiceQuestion.construct id text options correctAnswer = .ok q →
        q.options.contains q.correctAnswer = true ∧
        2 ≤ q.options.length ∧ q.options.length ≤ 6) := by
  constructor
  · intro id text options correctAnswer type q h
    obtain ⟨ho, hca, hmem⟩ := question_construct_ok id text options correctAnswer type q h
    rw [ho, hca]
    exact hmem
  · intro id text options correctAnswer q h
    rcases hq0 : Question.construct id text options correctAnswer ("multiple-choice") with e | q0
    · simp only [MultipleChoiceQuestion.construct, hq0] at h
      cases h
    · simp only [MultipleChoiceQuestion.construct, hq0] at h
      split at h
      · cases h
      · rename_i hlen
        injection h with h2
        subst h2
        obtain ⟨ho, hca, hmem⟩ :=
          question_construct_ok id text options correctAnswer ("multiple-choice") q0 hq0
        refine ⟨by rw [ho, hca]; exact hmem, ?_, ?_⟩ <;>
          · simp only [Bool.or_eq_true, decide_eq_true_eq, not_or, not_lt] at hlen
            omega

/-- Witness for C6 (amended) at concrete valid constructions. -/
theorem construct_invariants_witness :
    questionC6tf.options.contains questionC6tf.correctAnswer = true ∧
    (questionC6mc.options.contains questionC6mc.correctAnswer = true ∧
      2 ≤ questionC6mc.options.length ∧ questionC6mc.options.length ≤ 6) :=
  ⟨construct_invariants.1 1 ("t") ["True", "False"] ("True") ("true-false")
      questionC6tf rfl,
    construct_invariants.2 5 ("t") ["A", "B", "C"] ("B") questionC6mc rfl⟩

/-! ## C7: persistence round-trip -/

/-- Setting back the saved answer on a reset question reproduces the
original question. -/
theorem resetAnswer_set_back (q : Question) (v : String)
    (h : q.selectedAnswer = some v) :
    ({ q.resetAnswer with selectedAnswer := some v } : Question) = q := by
  rw [← h]
  rfl

/-- The restore loop ignores a leading question none of the saved
answers refer to. -/
theorem restoreLoop_cons_skip (answers : List SavedAnswer) (q : Question) :
    ∀ qs res, (∀ sa ∈ answers, (q.id == sa.id) = false) →
      Quiz.restoreLoop qs answers = .ok res →
      Quiz.restoreLoop (q :: qs) answers = .ok (q :: res) := by
  induction answers with
  | nil =>
    intro qs res _ h
    simp only [Quiz.restoreLoop] at h ⊢
    injection h with h
    rw [h]
  | cons sa rest ih =>
    intro qs res hne h
    have hq : (q.id == sa.id) = false := hne sa (List.mem_cons_self _ _)
    have hrest : ∀ sa' ∈ rest, (q.id == sa'.id) = false :=
      fun sa' hsa' => hne sa' (List.mem_cons_of_mem _ hsa')
    simp only [Quiz.restoreLoop, List.find?, hq] at h ⊢
    rcases hfind : qs.find? (fun x => x.id == sa.id) with _ | qf <;>
      simp only [hfind] at h ⊢
    · exact ih qs res hrest h
    · rcases hsel : sa.selectedAnswer with _ | v <;> simp only [hsel] at h ⊢
      · exact ih qs res hrest h
      · by_cases hv : v = ""
        · simp only [if_pos hv] at h ⊢
          exact ih qs res hrest h
        · simp only [if_neg hv] at h ⊢
          by_cases hco : qf.options.contains v = true
          · simp only [if_pos hco] at h ⊢
            have hupd : updateFirst (fun x => x.id == sa.id)
                (fun x => { x with selectedAnswer := some v }) (q :: qs) =
                q :: updateFirst (fun x => x.id == sa.id)
                  (fun x => { x with selectedAnswer := some v }) qs := by
              simp [updateFirst, hq]
            rw [hupd]
            exact ih _ res hrest h
          · simp only [if_neg hco] at h
            cases h

/-- Round trip of the restore loop over the record `_saveToStorage`
writes: with pairwise distinct ids and in-options selections, loading
restores exactly the non-empty saved answers. -/
theorem restoreLoop_roundtrip (qs : List Question)
    (hnd : (qs.map Question.id).Nodup)
    (hopts : ∀ q ∈ qs, q.selectedAnswer.all (fun v => q.options.contains v) = true) :
    Quiz.restoreLoop (qs.map Question.resetAnswer) (qs.map savedAnswerOf) =
      .ok (qs.map expectedRestore) := by
  induction qs with
  | nil => rfl
  | cons q rest ih =>
    have hnd' : (rest.map Question.id).Nodup := (List.nodup_cons.mp hnd).2
    have hqid : q.id ∉ rest.map Question.id := (List.nodup_cons.mp hnd).1
    have hne : ∀ sa ∈ rest.map savedAnswerOf, ((q.resetAnswer).id == sa.id) = false := by
      intro sa hsa
      simp only [List.mem_map] at hsa
      obtain ⟨q', hq', rfl⟩ := hsa
      have hd : q.id ≠ q'.id := fun hcon => hqid (hcon ▸ List.mem_map_of_mem Question.id hq')
      simpa [Question.resetAnswer, savedAnswerOf] using hd
    have ihr := ih hnd' (fun q' hq' => hopts q' (List.mem_cons_of_mem _ hq'))
    have hopq := hopts q (List.mem_cons_self _ _)
    have hbeq : (((q.resetAnswer).id == (savedAnswerOf q).id)) = true := by
      simp [Question.resetAnswer, savedAnswerOf]
    simp only [List.map_cons, Quiz.restoreLoop, List.find?, hbeq]
    have hsaq : (savedAnswerOf q).selectedAnswer = q.selectedAnswer := rfl
    rw [hsaq]
    rcases hsel : q.selectedAnswer with _ | v <;> simp only [hsel]
    · have hexp : expectedRestore q = q.resetAnswer := by
        simp [expectedRestore, hsel]
      rw [hexp]
      exact restoreLoop_cons_skip (rest.map savedAnswerOf) q.resetAnswer
        (rest.map Question.resetAnswer) (rest.map expectedRestore) hne ihr
    · by_cases hv : v = ""
      · simp only [if_pos hv]
        have hexp : expectedRestore q = q.resetAnswer := by
          simp [expectedRestore, hsel, hv]
        rw [hexp]
        exact restoreLoop_cons_skip (rest.map savedAnswerOf) q.resetAnswer
          (rest.map Question.resetAnswer) (rest.map expectedRestore) hne ihr
      · simp only [if_neg hv]
        have hco : (q.resetAnswer).options.contains v = true := by
          have hq2 := hopq
          rw [hsel] at hq2
          simpa [Question.resetAnswer] using hq2
        simp only [if_pos hco]
        have hupd : updateFirst (fun x => x.id == (savedAnswerOf q).id)
            (fun x => { x with selectedAnswer := some v })
            (q.resetAnswer :: rest.map Question.resetAnswer) =
            q :: rest.map Question.resetAnswer := by
          simp only [updateFirst, hbeq, if_true]
          rw [resetAnswer_set_back q v hsel]
        rw [hupd]
        have hexp : expectedRestore q = q := by
          simp [expectedRestore, hsel, hv]
        rw [hexp]
        have hne' : ∀ sa ∈ rest.map savedAnswerOf, (q.id == sa.id) = false := by
          simpa [Question.resetAnswer] using hne
        exact restoreLoop_cons_skip (rest.map savedAnswerOf) q
          (rest.map Question.resetAnswer) (rest.map expectedRestore) hne' ihr

/-- C7 amended: saving a non-completed quiz's answers and loading the
record into a freshly constructed quiz over the same question set
succeeds and reproduces the `selectedAnswer` of every question whose
saved answer was non-null AND non-empty (JS truthiness skips empty
strings), leaves every other question unanswered, and also restores
`startTime` and `attempts`; ids require pairwise distinctness and
selections must lie in their question's options. -/
theorem persistence_roundtrip (quiz : Quiz) (state : PersistedState) (fresh : Quiz)
    (hnc : quiz.isCompleted = false)
    (hsp : quiz.config.saveProgress = true)
    (hnd : (quiz.questions.map Question.id).Nodup)
    (hopts : ∀ q ∈ quiz.questions,
      q.selectedAnswer.all (fun v => q.options.contains v) = true)
    (hst : quiz.saveToStorage.storage = some state)
    (hfq : fresh.questions = quiz.questions.map Question.resetAnswer)
    (hfsp : fresh.config.saveProgress = true)
    (hfst : fresh.storage = some state)
    (hfstart : fresh.startTime = none) :
    fresh.loadFromStorage.1 = true ∧
    fresh.loadFromStorage.2.questions = quiz.questions.map expectedRestore ∧
    fresh.loadFromStorage.2.startTime = quiz.startTime ∧
    fresh.loadFromStorage.2.attempts = quiz.attempts := by
  have hsave : quiz.saveToStorage.storage =
      some { answers := quiz.questions.map savedAnswerOf,
             startTime := quiz.startTime, isCompleted := quiz.isCompleted,
             attempts := quiz.attempts, version := "1.0" } := by
    simp [Quiz.saveToStorage, hsp, hnc]
  have hstate := Option.some.inj (hst.symm.trans hsave)
  subst hstate
  have hrl := restoreLoop_roundtrip quiz.questions hnd hopts
  rcases hq : quiz.startTime with _ | t <;>
    simp only [Quiz.loadFromStorage, hfsp, Bool.not_true, Bool.false_eq_true,
      if_false, hfst, hnc, hfq, hq, hrl, hfstart] <;>
    simp_all

/-- C7 counterexample: a saved answer that is the empty string (legal,
since options may contain `""`) is present in the record as a non-null
answer but is NOT reproduced on load — JS truthiness drops it —
refuting the claim for every non-null saved value. -/
theorem persistence_roundtrip_counterexample :
    quizC7.saveToStorage.storage = some stateC7 ∧
    stateC7.answers = [{ id := 1, selectedAnswer := some ("") }] ∧
    freshC7.loadFromStorage.1 = true ∧
    freshC7.loadFromStorage.2.questions.map Question.selectedAnswer = [none] ∧
    freshC7.loadFromStorage.2.questions.map Question.selectedAnswer ≠ [some ("")] := by
  refine ⟨rfl, rfl, rfl, rfl, by decide⟩

/-- Witness for C7 (amended) at a concrete two-question quiz: the
non-empty answer is restored, the unanswered question stays
unanswered, and `startTime`/`attempts` come back. -/
theorem persistence_roundtrip_witness :
    quizC7w.saveToStorage.storage = some stateC7w ∧
    freshC7w.loadFromStorage.1 = true ∧
    freshC7w.loadFromStorage.2.questions = [questionC7a, questionC7b.resetAnswer] ∧
    freshC7w.loadFromStorage.2.startTime = some 11 ∧
    freshC7w.loadFromStorage.2.attempts = 3 := by
  have h := persistence_roundtrip quizC7w stateC7w freshC7w rfl rfl
    (by decide) (by decide) rfl rfl rfl rfl rfl
  refine ⟨rfl, h.1, ?_, ?_, h.2.2.2⟩
  · rw [h.2.1]
    rfl
  · rw [h.2.2.1]
    rfl
